import Mathlib

/-!
Shallow embedding of `dfttktojson.py` (DFTTK-datasets repository).

The script defines two functions, `update_metadata` and
`dfttk_writeto_json`, which read records from a DFTTK MongoDB
collection, call external scientific-library functions
(`pymatgen.core.Structure.from_dict`, `dfttk.PRLStructure.from_structure`,
`dfttk.analysis.formation_energies.get_thermal_props` /
`get_formation_energy`), reshape the results and build ESPEI datasets.

Modelling choices:
* MongoDB documents are a concrete structure `Doc` holding the fields the
  script reads (`metadata.tag`, `metadata.phase_name`,
  `metadata.sublattice.{configuration, occupancies}`, `structure`); fields
  that a document may lack are `Option`s.  A collection is a list of
  documents; `find_one` is the first match in the list, `find` is `filter`.
* The external library functions are abstract: a `DfttkLib` record of
  fallible functions (`Except ε`).  Python exceptions raised inside our
  two functions (KeyError / TypeError / NameError / IndexError) are the
  other constructors of `PyErr`.
* Numeric values (`V`), raw structure dicts (`S`), parsed structures (`P`),
  the non-`T` payload of a thermal-properties dict (`PL`), library errors
  (`ε`) and the pass-through `sublattice_site_ratios` argument (`R`) are
  type parameters.
* `make_dataset` (external, `dfttk.espei_compat`) is modelled as an
  uninterpreted constructor that records its arguments, since every claim
  is about which arguments reach it.
* Python's leaking of loop variables (`tag`, `prop`, `fixed_temp`,
  `cpm_temps` survive their loops and raise `NameError` when the loop
  never ran) is modelled with `Option` accumulators resolved after the
  loops, in the source's evaluation order.
* Writing the JSON file is modelled by the result constructor
  `WJResult.wroteFile filename dataset`; returning the dataset (the
  `writefile` not `True` branch) by `WJResult.returned`.
* `update_metadata` additionally returns the list of database operations
  it performs, so that read-only-ness is a provable statement: `DbOp.apply`
  gives the state effect of each operation.
-/

namespace DfttkJson

/-- Python exceptions: either an exception `e` raised by an underlying
database/library call (`ext e`), or an exception raised by the script's
own code. -/
inductive PyErr (ε : Type) where
  | ext : ε → PyErr ε
  | typeError : String → PyErr ε
  | keyError : String → PyErr ε
  | nameError : String → PyErr ε
  | indexError : PyErr ε
deriving DecidableEq, Repr

/-- The `metadata.sublattice` subdocument of a DFTTK record. -/
structure Sublattice (V : Type) where
  configuration : List (List String)
  occupancies : List (List V)
deriving DecidableEq, Repr

/-- A MongoDB document, restricted to the fields the script reads.
`tag` is `metadata.tag`, `phase_name` is `metadata.phase_name`,
`sublattice` is `metadata.sublattice`, `struct` is the top-level
`structure` entry (a raw pymatgen dict, abstract type `S`). -/
structure Doc (V S : Type) where
  tag : String
  phase_name : Option String
  sublattice : Option (Sublattice V)
  struct : Option S
deriving DecidableEq, Repr

/-- A MongoDB database: collection name to list of documents. -/
structure MongoDb (V S : Type) where
  colls : String → List (Doc V S)

/-- An interpretation of `db.json` paths: `VaspCalcDb.from_db_file` at a
path yields the database behind that path. -/
def World (V S : Type) : Type := String → MongoDb V S

/-- A database operation, as issued by the script.  Only `find_one` and
`find` are issued by the two functions under study; the write operations
exist in the model so that read-only-ness is a nontrivial statement. -/
inductive DbOp (V S : Type) where
  | find_one (coll : String) (queryTag : String)
  | find (coll : String) (queryConfiguration : List (List String)) (queryPhase : String)
  | insert_one (coll : String) (doc : Doc V S)
  | delete_by_tag (coll : String) (tag : String)
deriving DecidableEq

/-- State effect of a database operation: the reads leave the database
unchanged, the writes modify it. -/
def DbOp.apply {V S : Type} : DbOp V S → MongoDb V S → MongoDb V S
  | .find_one _ _, db => db
  | .find _ _ _, db => db
  | .insert_one c d, db =>
      ⟨fun c' => if c' = c then db.colls c' ++ [d] else db.colls c'⟩
  | .delete_by_tag c t, db =>
      ⟨fun c' => if c' = c then (db.colls c').filter (fun d => d.tag ≠ t) else db.colls c'⟩

/-- Replay a trace of database operations on a database state. -/
def applyOps {V S : Type} (ops : List (DbOp V S)) (db : MongoDb V S) : MongoDb V S :=
  ops.foldl (fun db op => op.apply db) db

/-- Result of `get_thermal_props`: a dict with a temperature array `T`
(the only key the script reads) and an opaque remainder. -/
structure ThermalProps (V PL : Type) where
  T : List V
  payload : PL
deriving DecidableEq, Repr

/-- Result of `PRLStructure.from_structure`: the three sublattice
attributes the script reads. -/
structure PRLStruct (V : Type) where
  sublattice_configuration : List (List String)
  sublattice_occupancies : List (List V)
  sublattice_site_ratios : List V
deriving DecidableEq, Repr

/-- The external library functions called by the script, as abstract
fallible functions.  `get_thermal_props` takes an `Option (Doc V S)`
because the script passes it the raw result of `find_one`, which may be
`None`. -/
structure DfttkLib (V S P PL ε : Type) where
  structure_from_dict : S → Except ε P
  prl_from_structure : P → Except ε (PRLStruct V)
  get_thermal_props : Option (Doc V S) → Except ε (ThermalProps V PL)
  get_formation_energy_idx :
    ThermalProps V PL → P → List (String × ThermalProps V PL) → String → Nat → Except ε V
  get_formation_energy_thin :
    ThermalProps V PL → P → List (String × ThermalProps V PL) → String → Nat → Except ε (List V)

/-- The metadata dict returned by `update_metadata`. -/
structure MetadataDict (V : Type) where
  phase_name : String
  tag : String
  sublattice : Sublattice V
deriving DecidableEq, Repr

/-- The `T` entry of a conditions dict: the initial literal `0`, a scalar
temperature (`fixed_temp.tolist()`), or a temperature array
(`cpm_temps.tolist()`). -/
inductive CondVal (V : Type) where
  | intVal : Int → CondVal V
  | scalar : V → CondVal V
  | array : List V → CondVal V
deriving DecidableEq, Repr

/-- A conditions dict such as `fixed_conds` / `temp_conds`. -/
structure Conds (V : Type) where
  P : Int
  T : CondVal V
deriving DecidableEq, Repr

/-- The dataset built by the external `make_dataset` (dfttk.espei_compat),
modelled as a record of the arguments passed to it. -/
structure Dataset (V R : Type) where
  phase_name : String
  prop : String
  sublattice_site_ratios : R
  configs : List (List (List String))
  conds : Conds V
  vals : List (List (List V))
  occupancies : List (List (List V))
  tag : String
deriving DecidableEq, Repr

/-- External `make_dataset(phase_name, prop, sublattice_site_ratios,
configs, conds, vals, occupancies=occupancies, tag=tag)`, modelled as the
free constructor of `Dataset`. -/
def make_dataset {V R : Type} (phase_name prop : String) (sublattice_site_ratios : R)
    (configs : List (List (List String))) (conds : Conds V) (vals : List (List (List V)))
    (occupancies : List (List (List V))) (tag : String) : Dataset V R :=
  ⟨phase_name, prop, sublattice_site_ratios, configs, conds, vals, occupancies, tag⟩

/-- Result of `dfttk_writeto_json`: either a JSON file was written
(filename and serialized dataset recorded), or the dataset was returned. -/
inductive WJResult (V R : Type) where
  | wroteFile : String → Dataset V R → WJResult V R
  | returned : Dataset V R → WJResult V R
deriving DecidableEq, Repr

/-- External `dfttk.utils.recursive_flatten`, on the nested species lists
used here: flattens one level of nesting. -/
def recursive_flatten (l : List (List String)) : List String := l.flatten

/-- Python's `str.upper()` on the ASCII species names used here:
uppercase each character. -/
def pyUpper (s : String) : String := ⟨s.data.map Char.toUpper⟩

/-- Lexicographic strict order on character lists by code point (the
order Python compares strings with). -/
def charListLt : List Char → List Char → Bool
  | [], [] => false
  | [], _ :: _ => true
  | _ :: _, [] => false
  | c :: cs, d :: ds => if c < d then true else if d < c then false else charListLt cs ds

/-- Python's `s <= t` on strings: the negation of `t < s`. -/
def pyStrLe (s t : String) : Bool := !charListLt t.data s.data

/-- Insert a string into a sorted list of strings (helper for `pySorted`). -/
def insertStr (s : String) : List String → List String
  | [] => [s]
  | t :: ts => if pyStrLe s t then s :: t :: ts else t :: insertStr s ts

/-- Python's `sorted` on a list of strings (lexicographic by code point,
ascending). -/
def pySorted : List String → List String
  | [] => []
  | s :: ss => insertStr s (pySorted ss)

/-- Python slice `l[::n]` for a positive step `n`: auxiliary countdown. -/
def everyNthAux {α : Type} (n : Nat) : Nat → List α → List α
  | _, [] => []
  | 0, x :: xs => x :: everyNthAux n (n - 1) xs
  | k + 1, _ :: xs => everyNthAux n k xs

/-- Python slice `l[::n]`: every `n`-th element starting at index 0. -/
def everyNth {α : Type} (n : Nat) (l : List α) : List α := everyNthAux n 0 l

/-- Python slice `l[:-2]`: drop the last two elements. -/
def dropLast2 {α : Type} (l : List α) : List α := l.dropLast.dropLast

/-- Python loop-variable leak: the value of a loop variable after the
loop, given its value before the loop (`o`) and the values assigned in
the iterations. -/
def lastOpt {α : Type} (o : Option α) : List α → Option α
  | [] => o
  | x :: xs => lastOpt (some x) xs

variable {V S P PL ε R : Type}

/-- Embedding of `update_metadata(phase_name, metadata_tag, db_file,
collection)` (lines 16-52).  Returns the result together with the trace of
database operations performed. -/
def update_metadata (lib : DfttkLib V S P PL ε) (world : World V S)
    (phase_name metadata_tag db_file collection : String) :
    Except (PyErr ε) (MetadataDict V) × List (DbOp V S) :=
  let vasp_db := world db_file
  let result_db := vasp_db.colls collection
  let tag_results := result_db.find? (fun d => d.tag == metadata_tag)
  let res : Except (PyErr ε) (MetadataDict V) := do
    match tag_results with
    | none =>
        -- Python: `None['structure']` raises TypeError
        Except.error (PyErr.typeError "NoneType object is not subscriptable")
    | some doc => do
        let sdict ← (match doc.struct with
          | some s => Except.ok s
          | none => Except.error (PyErr.keyError "structure"))
        let structure0 ← (lib.structure_from_dict sdict).mapError PyErr.ext
        let ps ← (lib.prl_from_structure structure0).mapError PyErr.ext
        let subl_configuration := ps.sublattice_configuration
        let subl_occ := ps.sublattice_occupancies
        let _subl_ratios := ps.sublattice_site_ratios
        Except.ok { phase_name := phase_name, tag := metadata_tag,
                    sublattice := { configuration := subl_configuration,
                                    occupancies := subl_occ } }
  (res, [DbOp.find_one collection metadata_tag])

/-- The refstate loop of `dfttk_writeto_json` (lines 81-84): builds the
`refstate_energies` association list and records the final value of the
loop variable `tag` (Python leaks it past the loop). -/
def buildRefstateEnergies (lib : DfttkLib V S P PL ε) (coll : List (Doc V S))
    (refstate_tags : List (String × String)) :
    Except (PyErr ε) (List (String × ThermalProps V PL) × Option String) :=
  refstate_tags.foldlM
    (fun acc p => do
      let qha_result := coll.find? (fun d => d.tag == p.2)
      let tp ← (lib.get_thermal_props qha_result).mapError PyErr.ext
      Except.ok (acc.1 ++ [(p.1, tp)], some p.2))
    ([], none)

/-- Accumulator of the main record loop of `dfttk_writeto_json`
(lines 85-104): the five growing lists plus the leaked loop variables
`fixed_temp` and `cpm_temps`. -/
structure LoopState (V : Type) where
  configs : List (List (List String))
  occupancies : List (List (List V))
  hm_values : List V
  sm_values : List V
  cpm_values : List (List V)
  fixed_temp : Option V
  cpm_temps : Option (List V)
deriving DecidableEq, Repr

/-- Initial accumulator: five empty lists, loop variables unassigned. -/
def initLoopState : LoopState V :=
  ⟨[], [], [], [], [], none, none⟩

/-- One iteration of the main record loop (lines 93-104). -/
def processRecord (lib : DfttkLib V S P PL ε)
    (refstate_energies : List (String × ThermalProps V PL)) (temperature_index : Nat)
    (st : LoopState V) (qha_res : Doc V S) : Except (PyErr ε) (LoopState V) := do
  let sl ← (match qha_res.sublattice with
    | some sl => Except.ok sl
    | none => Except.error (PyErr.keyError "sublattice"))
  let configs' := st.configs ++ [sl.configuration]
  let occupancies' := st.occupancies ++ [sl.occupancies]
  let tprops ← (lib.get_thermal_props (some qha_res)).mapError PyErr.ext
  let sdict ← (match qha_res.struct with
    | some s => Except.ok s
    | none => Except.error (PyErr.keyError "structure"))
  let struct ← (lib.structure_from_dict sdict).mapError PyErr.ext
  let hm_form ← (lib.get_formation_energy_idx tprops struct refstate_energies "HM"
      temperature_index).mapError PyErr.ext
  let sm_form ← (lib.get_formation_energy_idx tprops struct refstate_energies "SM"
      temperature_index).mapError PyErr.ext
  let cpm_all ← (lib.get_formation_energy_thin tprops struct refstate_energies "CPM"
      10).mapError PyErr.ext
  let cpm_form := dropLast2 cpm_all
  let fixed_temp ← (match tprops.T[temperature_index]? with
    | some v => Except.ok v
    | none => Except.error PyErr.indexError)
  let cpm_temps := dropLast2 (everyNth 10 tprops.T)
  Except.ok { configs := configs', occupancies := occupancies',
              hm_values := st.hm_values ++ [hm_form],
              sm_values := st.sm_values ++ [sm_form],
              cpm_values := st.cpm_values ++ [cpm_form],
              fixed_temp := some fixed_temp, cpm_temps := some cpm_temps }

/-- The Mongo query of line 92: equality on
`metadata.sublattice.configuration` and `metadata.phase_name` (a document
lacking either field does not match). -/
def docMatches (configuration_to_find : List (List String)) (phase_name : String)
    (d : Doc V S) : Bool :=
  (match d.sublattice with
    | some sl => sl.configuration == configuration_to_find
    | none => false)
  && d.phase_name == some phase_name

/-- The per-property loop of lines 114-115: the three `make_dataset`
calls, each paired with the loop variable `prop`. -/
def buildDatasets (phase_name : String) (sublattice_site_ratios : R)
    (configs : List (List (List String))) (fixed_conds temp_conds : Conds V)
    (hm_vals sm_vals cpm_vals : List (List (List V)))
    (occupancies : List (List (List V))) (tag : String) : List (String × Dataset V R) :=
  [("HM_FORM", hm_vals, fixed_conds), ("SM_FORM", sm_vals, fixed_conds),
   ("CPM_FORM", cpm_vals, temp_conds)].map
    (fun t => (t.1, make_dataset phase_name t.1 sublattice_site_ratios configs
                      t.2.2 t.2.1 occupancies tag))

/-- Lines 79-115 of `dfttk_writeto_json`: everything up to (and
including) the per-property loop.  Returns the `comps` list and the final
values of the loop variables `prop` and `ds`. -/
def wjCore (lib : DfttkLib V S P PL ε) (world : World V S)
    (phase_name : String) (refstate_tags : List (String × String))
    (configuration_to_find : List (List String)) (sublattice_site_ratios : R)
    (db_file collection : String) (temperature_index : Nat) :
    Except (PyErr ε) (List String × String × Dataset V R) := do
  let vasp_db := world db_file
  let coll := vasp_db.colls collection
  let refstate ← buildRefstateEnergies lib coll refstate_tags
  let refstate_energies := refstate.1
  let matched := coll.filter (docMatches configuration_to_find phase_name)
  let st ← matched.foldlM (processRecord lib refstate_energies temperature_index)
    initLoopState
  -- line 105: `fixed_conds['T'] = fixed_temp.tolist()`; NameError if the
  -- loop never ran
  let fixed_temp ← (match st.fixed_temp with
    | some v => Except.ok v
    | none => Except.error (PyErr.nameError "fixed_temp"))
  let cpm_temps ← (match st.cpm_temps with
    | some v => Except.ok v
    | none => Except.error (PyErr.nameError "cpm_temps"))
  let fixed_conds0 : Conds V := { P := 101325, T := CondVal.intVal 0 }
  let temp_conds0 : Conds V := { P := 101325, T := CondVal.intVal 0 }
  let fixed_conds : Conds V := { fixed_conds0 with T := CondVal.scalar fixed_temp }
  let temp_conds : Conds V := { temp_conds0 with T := CondVal.array cpm_temps }
  let hm_vals : List (List (List V)) := [[st.hm_values]]
  let sm_vals : List (List (List V)) := [[st.sm_values]]
  let cpm_vals : List (List (List V)) := [st.cpm_values.transpose]
  let comps := (pySorted (recursive_flatten configuration_to_find)).map pyUpper
  -- line 115 uses `tag`, leaked from the refstate loop; NameError if
  -- `refstate_tags` was empty
  let tag ← (match refstate.2 with
    | some t => Except.ok t
    | none => Except.error (PyErr.nameError "tag"))
  let pds ← (match (buildDatasets phase_name sublattice_site_ratios st.configs
      fixed_conds temp_conds hm_vals sm_vals cpm_vals st.occupancies tag).getLast? with
    | some x => Except.ok x
    | none => Except.error (PyErr.nameError "prop"))
  Except.ok (comps, pds)

/-- Embedding of `dfttk_writeto_json(phase_name, refstate_tags,
configuration_to_find, sublattice_site_ratios, db_file, collection,
temperature_index, writefile=True)` (lines 54-120). -/
def dfttk_writeto_json (lib : DfttkLib V S P PL ε) (world : World V S)
    (phase_name : String) (refstate_tags : List (String × String))
    (configuration_to_find : List (List String)) (sublattice_site_ratios : R)
    (db_file collection : String) (temperature_index : Nat) (writefile : Bool) :
    Except (PyErr ε) (WJResult V R) := do
  let core ← wjCore lib world phase_name refstate_tags configuration_to_find
    sublattice_site_ratios db_file collection temperature_index
  let comps := core.1
  let prop := core.2.1
  let ds := core.2.2
  if writefile then
    Except.ok (WJResult.wroteFile
      (String.intercalate "-" comps ++ "-" ++ phase_name ++ "-" ++ prop ++ "-DFTTK.json") ds)
  else
    Except.ok (WJResult.returned ds)

/-- Oracle for one record of the main loop: the values returned by the
external library calls at that record, used to phrase success hypotheses. -/
structure Oracle (V S P PL : Type) where
  sl : Doc V S → Sublattice V
  sd : Doc V S → S
  tp : Doc V S → ThermalProps V PL
  ps : Doc V S → P
  hm : Doc V S → V
  sm : Doc V S → V
  cpmAll : Doc V S → List V
  ft : Doc V S → V

/-- A record on which all the calls of one iteration of the main loop
succeed, with the values given by the oracle. -/
def Oracle.Ok (O : Oracle V S P PL) (lib : DfttkLib V S P PL ε)
    (E : List (String × ThermalProps V PL)) (tidx : Nat) (d : Doc V S) : Prop :=
  d.sublattice = some (O.sl d) ∧
  d.struct = some (O.sd d) ∧
  lib.get_thermal_props (some d) = Except.ok (O.tp d) ∧
  lib.structure_from_dict (O.sd d) = Except.ok (O.ps d) ∧
  lib.get_formation_energy_idx (O.tp d) (O.ps d) E "HM" tidx = Except.ok (O.hm d) ∧
  lib.get_formation_energy_idx (O.tp d) (O.ps d) E "SM" tidx = Except.ok (O.sm d) ∧
  lib.get_formation_energy_thin (O.tp d) (O.ps d) E "CPM" 10 = Except.ok (O.cpmAll d) ∧
  (O.tp d).T[tidx]? = some (O.ft d)

/-- The explicit dataset that the `prop = "CPM_FORM"` iteration of the
per-property loop builds, given the oracle values of a successful run
whose last matched record is `dl` and whose leaked `tag` is `tg`. -/
def cpmDataset (O : Oracle V S P PL) (phase_name : String) (ssr : R)
    (matched : List (Doc V S)) (dl : Doc V S) (tg : String) : Dataset V R :=
  { phase_name := phase_name, prop := "CPM_FORM", sublattice_site_ratios := ssr,
    configs := matched.map (fun d => (O.sl d).configuration),
    conds := { P := 101325, T := CondVal.array (dropLast2 (everyNth 10 (O.tp dl).T)) },
    vals := [(matched.map (fun d => dropLast2 (O.cpmAll d))).transpose],
    occupancies := matched.map (fun d => (O.sl d).occupancies),
    tag := tg }

/-! ### Concrete test fixtures (used by the witnesses) -/

/-- A concrete library in which every external call succeeds: structure
dicts parse to themselves, thermal properties have temperature array
`[300, 400, 500]`, HM formation values are `5`, SM values are `7`, CPM
arrays are `[1, 2, 3, 4]`. -/
def testLib : DfttkLib Int Nat Nat Unit Nat where
  structure_from_dict := fun s => Except.ok s
  prl_from_structure := fun _ => Except.ok ⟨[["al"], ["ni"]], [[1], [1]], [1, 1]⟩
  get_thermal_props := fun od => match od with
    | some _ => Except.ok ⟨[300, 400, 500], ()⟩
    | none => Except.error 42
  get_formation_energy_idx := fun _ _ _ prop _ =>
    Except.ok (if prop = "HM" then 5 else 7)
  get_formation_energy_thin := fun _ _ _ _ _ => Except.ok [1, 2, 3, 4]

/-- Like `testLib` but `Structure.from_dict` raises exception `9`. -/
def errLib : DfttkLib Int Nat Nat Unit Nat :=
  { testLib with structure_from_dict := fun _ => Except.error 9 }

/-- Reference-element document for `al`. -/
def docAl : Doc Int Nat := ⟨"al-tag", none, none, some 1⟩

/-- Reference-element document for `ni`. -/
def docNi : Doc Int Nat := ⟨"ni-tag", none, none, some 2⟩

/-- The one configuration document: phase `ph`, sublattice configuration
`[[al], [ni]]` with occupancies `[[1], [1]]`. -/
def doc1 : Doc Int Nat := ⟨"t1", some "ph", some ⟨[["al"], ["ni"]], [[1], [1]]⟩, some 7⟩

/-- A second configuration document matching the same phase and
configuration, tagged `t2`, with structure dict `8`. -/
def doc2 : Doc Int Nat := ⟨"t2", some "ph", some ⟨[["al"], ["ni"]], [[1], [1]]⟩, some 8⟩

/-- A world with a single database holding the three documents. -/
def testWorld : World Int Nat := fun _ => ⟨fun _ => [docAl, docNi, doc1]⟩

/-- A world whose database holds two matching configuration records
(`doc1` then `doc2`). -/
def testWorld2 : World Int Nat := fun _ => ⟨fun _ => [docAl, docNi, doc1, doc2]⟩

/-- Like `testLib` but `get_formation_energy(..., 'CPM', thin=10)` raises
exception `13` on the structure parsed from dict `8` (i.e. on `doc2`). -/
def thinErrLib : DfttkLib Int Nat Nat Unit Nat :=
  { testLib with get_formation_energy_thin := fun _ p _ _ _ =>
      if p = 8 then Except.error 13 else Except.ok [1, 2, 3, 4] }

/-- The refstate tags used by the concrete tests. -/
def testRefTags : List (String × String) := [("al", "al-tag"), ("ni", "ni-tag")]

/-- The configuration queried for in the concrete tests. -/
def testConf : List (List String) := [["al"], ["ni"]]

/-- The thermal-props oracle of `testLib`: every record yields
temperature array `[300, 400, 500]`. -/
def testRtp : String → ThermalProps Int Unit := fun _ => ⟨[300, 400, 500], ()⟩

/-- The record oracle of `testLib`. -/
def testOracle : Oracle Int Nat Nat Unit where
  sl := fun d => d.sublattice.getD ⟨[], []⟩
  sd := fun d => d.struct.getD 0
  tp := fun _ => ⟨[300, 400, 500], ()⟩
  ps := fun d => d.struct.getD 0
  hm := fun _ => 5
  sm := fun _ => 7
  cpmAll := fun _ => [1, 2, 3, 4]
  ft := fun _ => 400

/-- The dataset that `dfttk_writeto_json` produces on the concrete test
data: only the `CPM_FORM` quantity, at the leaked refstate tag `ni-tag`. -/
def testCpmDs : Dataset Int Nat :=
  { phase_name := "ph", prop := "CPM_FORM", sublattice_site_ratios := 3,
    configs := [[["al"], ["ni"]]],
    conds := { P := 101325, T := CondVal.array [] },
    vals := [[[1], [2]]],
    occupancies := [[[1], [1]]],
    tag := "ni-tag" }

deriving instance DecidableEq for Except

instance oracleOkDec [DecidableEq V] [DecidableEq S] [DecidableEq P]
    [DecidableEq PL] [DecidableEq ε] (O : Oracle V S P PL) (lib : DfttkLib V S P PL ε)
    (E : List (String × ThermalProps V PL)) (tidx : Nat) (d : Doc V S) :
    Decidable (O.Ok lib E tidx d) := by
  unfold Oracle.Ok
  infer_instance

/-! ### Helper lemmas -/

theorem exceptOk_bind {α β : Type} {e : Type} (a : α) (f : α → Except e β) :
    (Except.ok a : Except e α) >>= f = f a := rfl

theorem exceptError_bind {α β : Type} {e : Type} (x : e) (f : α → Except e β) :
    (Except.error x : Except e α) >>= f = Except.error x := rfl

theorem exceptMapError_ok {α : Type} {e e' : Type} (g : e → e') (a : α) :
    (Except.ok a : Except e α).mapError g = Except.ok a := rfl

theorem exceptMapError_error {α : Type} {e e' : Type} (g : e → e') (x : e) :
    (Except.error x : Except e α).mapError g = (Except.error (g x) : Except e' α) := rfl

theorem lastOpt_append_singleton {α : Type} (o : Option α) (l : List α) (x : α) :
    lastOpt o (l ++ [x]) = some x := by
  induction l generalizing o with
  | nil => rfl
  | cons y ys ih => simpa [lastOpt] using ih (some y)

theorem processRecord_eq (O : Oracle V S P PL) (lib : DfttkLib V S P PL ε)
    (E : List (String × ThermalProps V PL)) (tidx : Nat) (st : LoopState V)
    (d : Doc V S) (h : O.Ok lib E tidx d) :
    processRecord lib E tidx st d = Except.ok
      { configs := st.configs ++ [(O.sl d).configuration],
        occupancies := st.occupancies ++ [(O.sl d).occupancies],
        hm_values := st.hm_values ++ [O.hm d],
        sm_values := st.sm_values ++ [O.sm d],
        cpm_values := st.cpm_values ++ [dropLast2 (O.cpmAll d)],
        fixed_temp := some (O.ft d),
        cpm_temps := some (dropLast2 (everyNth 10 (O.tp d).T)) } := by
  obtain ⟨h1, h2, h3, h4, h5, h6, h7, h8⟩ := h
  simp [processRecord, h1, h2, h3, h4, h5, h6, h7, h8,
    exceptOk_bind, exceptMapError_ok]

theorem foldlM_processRecord_eq (O : Oracle V S P PL) (lib : DfttkLib V S P PL ε)
    (E : List (String × ThermalProps V PL)) (tidx : Nat) (L : List (Doc V S))
    (st : LoopState V) (h : ∀ d ∈ L, O.Ok lib E tidx d) :
    L.foldlM (processRecord lib E tidx) st = Except.ok
      { configs := st.configs ++ L.map (fun d => (O.sl d).configuration),
        occupancies := st.occupancies ++ L.map (fun d => (O.sl d).occupancies),
        hm_values := st.hm_values ++ L.map O.hm,
        sm_values := st.sm_values ++ L.map O.sm,
        cpm_values := st.cpm_values ++ L.map (fun d => dropLast2 (O.cpmAll d)),
        fixed_temp := lastOpt st.fixed_temp (L.map O.ft),
        cpm_temps := lastOpt st.cpm_temps
          (L.map (fun d => dropLast2 (everyNth 10 (O.tp d).T))) } := by
  induction L generalizing st with
  | nil =>
    simp only [List.foldlM_nil, List.map_nil, List.append_nil]
    rfl
  | cons d ds ih =>
    rw [List.foldlM_cons, processRecord_eq O lib E tidx st d (h d (by simp)),
      exceptOk_bind, ih _ (fun d' hd' => h d' (by simp [hd']))]
    simp [lastOpt, List.append_assoc]

theorem buildRefstateEnergies_aux (lib : DfttkLib V S P PL ε) (coll : List (Doc V S))
    (Rtp : String → ThermalProps V PL) (tags : List (String × String))
    (acc : List (String × ThermalProps V PL)) (o : Option String)
    (h : ∀ p ∈ tags,
      lib.get_thermal_props (coll.find? (fun d => d.tag == p.2)) = Except.ok (Rtp p.2)) :
    tags.foldlM
      (fun acc p => do
        let qha_result := coll.find? (fun d => d.tag == p.2)
        let tp ← (lib.get_thermal_props qha_result).mapError PyErr.ext
        Except.ok (acc.1 ++ [(p.1, tp)], some p.2))
      (acc, o)
      = Except.ok (acc ++ tags.map (fun p => (p.1, Rtp p.2)),
          lastOpt o (tags.map Prod.snd)) := by
  induction tags generalizing acc o with
  | nil =>
    simp only [List.foldlM_nil, List.map_nil, List.append_nil]
    rfl
  | cons t ts ih =>
    rw [List.foldlM_cons]
    simp only [h t (by simp), exceptMapError_ok, exceptOk_bind]
    rw [ih _ _ (fun p hp => h p (by simp [hp]))]
    simp [lastOpt, List.append_assoc]

theorem buildRefstateEnergies_eq (lib : DfttkLib V S P PL ε) (coll : List (Doc V S))
    (Rtp : String → ThermalProps V PL) (tags : List (String × String))
    (h : ∀ p ∈ tags,
      lib.get_thermal_props (coll.find? (fun d => d.tag == p.2)) = Except.ok (Rtp p.2)) :
    buildRefstateEnergies lib coll tags
      = Except.ok (tags.map (fun p => (p.1, Rtp p.2)),
          lastOpt none (tags.map Prod.snd)) := by
  unfold buildRefstateEnergies
  exact buildRefstateEnergies_aux lib coll Rtp tags [] none h

theorem wjCore_eq (O : Oracle V S P PL) (lib : DfttkLib V S P PL ε) (world : World V S)
    (Rtp : String → ThermalProps V PL)
    (phase_name : String) (refstate_tags : List (String × String))
    (configuration_to_find : List (List String)) (ssr : R)
    (db_file collection : String) (tidx : Nat)
    (tpre : List (String × String)) (tl : String × String)
    (mpre : List (Doc V S)) (dl : Doc V S)
    (hR : ∀ p ∈ refstate_tags,
      lib.get_thermal_props (((world db_file).colls collection).find?
        (fun d => d.tag == p.2)) = Except.ok (Rtp p.2))
    (hO : ∀ d ∈ ((world db_file).colls collection).filter
        (docMatches configuration_to_find phase_name),
      O.Ok lib (refstate_tags.map (fun p => (p.1, Rtp p.2))) tidx d)
    (htags : refstate_tags = tpre ++ [tl])
    (hmatched : ((world db_file).colls collection).filter
        (docMatches configuration_to_find phase_name) = mpre ++ [dl]) :
    wjCore lib world phase_name refstate_tags configuration_to_find ssr
        db_file collection tidx
      = Except.ok ((pySorted (recursive_flatten configuration_to_find)).map pyUpper,
          "CPM_FORM",
          cpmDataset O phase_name ssr (mpre ++ [dl]) dl tl.2) := by
  unfold wjCore
  dsimp only
  rw [buildRefstateEnergies_eq lib _ Rtp refstate_tags hR, exceptOk_bind, hmatched,
    foldlM_processRecord_eq O lib _ tidx _ initLoopState (by rw [hmatched] at hO; exact hO),
    exceptOk_bind]
  simp only [initLoopState, List.nil_append, List.map_append, List.map_cons,
    List.map_nil, lastOpt_append_singleton]
  rw [exceptOk_bind, exceptOk_bind]
  have htag2 : refstate_tags.map Prod.snd = tpre.map Prod.snd ++ [tl.2] := by
    rw [htags]; simp
  rw [htag2, lastOpt_append_singleton, exceptOk_bind]
  simp [buildDatasets, make_dataset, cpmDataset, exceptOk_bind]

theorem wjCore_ok_inv (lib : DfttkLib V S P PL ε) (world : World V S)
    (phase_name : String) (refstate_tags : List (String × String))
    (configuration_to_find : List (List String)) (ssr : R)
    (db_file collection : String) (tidx : Nat)
    (t : List String × String × Dataset V R)
    (h : wjCore lib world phase_name refstate_tags configuration_to_find ssr
        db_file collection tidx = Except.ok t) :
    t.1 = (pySorted (recursive_flatten configuration_to_find)).map pyUpper ∧
    t.2.1 = "CPM_FORM" := by
  unfold wjCore at h
  dsimp only at h
  rcases hb : buildRefstateEnergies lib ((world db_file).colls collection) refstate_tags with
    e | r
  · rw [hb] at h; simp [exceptError_bind] at h
  rw [hb, exceptOk_bind] at h
  rcases hf : (((world db_file).colls collection).filter
      (docMatches configuration_to_find phase_name)).foldlM
      (processRecord lib r.1 tidx) initLoopState with e | st
  · rw [hf] at h; simp [exceptError_bind] at h
  rw [hf, exceptOk_bind] at h
  rcases hft : st.fixed_temp with _ | ft
  · rw [hft] at h; simp [exceptError_bind] at h
  rw [hft] at h
  rcases hct : st.cpm_temps with _ | ct
  · rw [hct] at h; simp [exceptError_bind, exceptOk_bind] at h
  rw [hct, exceptOk_bind, exceptOk_bind] at h
  rcases htg : r.2 with _ | tg
  · rw [htg] at h; simp [exceptError_bind] at h
  rw [htg, exceptOk_bind] at h
  simp only [buildDatasets, make_dataset, List.map_cons, List.map_nil,
    List.getLast?] at h
  rw [exceptOk_bind] at h
  cases h
  exact ⟨rfl, rfl⟩

end DfttkJson

namespace DfttkJson

/-! ### Claim theorems -/

/-- Claim C1.  The claim states that with `writefile=True` and at least
one matching record, all three quantities HM_FORM, SM_FORM and CPM_FORM
are serialized into the JSON dataset written to disk.  This theorem
evaluates the code on a concrete database with one matching record and
all library calls succeeding: exactly one file is written, named after
the leaked loop variable `prop = "CPM_FORM"`, and its content is the
CPM_FORM dataset only — the HM_FORM and SM_FORM datasets built in the
per-property loop are overwritten before the write, because the `with
open(...)` block sits after the loop rather than inside it.  The claim
fails on the code; the filename pattern (which embeds `prop`) and the
otherwise-dead HM/SM computations show the intended behaviour was one
file per property. -/
theorem c1_only_cpm_form_is_serialized :
    dfttk_writeto_json testLib testWorld "ph" testRefTags testConf (3 : Nat)
      "db.json" "qha" 1 true
      = Except.ok (WJResult.wroteFile "AL-NI-ph-CPM_FORM-DFTTK.json" testCpmDs) := by
  decide

/-- Claim C2.  If the collection contains a record with `metadata.tag`
equal to `metadata_tag` (and the external structure-parsing calls
succeed on it), `update_metadata` returns a dict whose `phase_name` is
the given phase name, whose `tag` is the given tag, and whose
`sublattice` entry holds the sublattice configuration and occupancies
derived via `PRLStructure` from the crystal structure stored in that
record. -/
theorem c2_update_metadata_enriches_metadata
    (lib : DfttkLib V S P PL ε) (world : World V S)
    (phase_name metadata_tag db_file collection : String)
    (doc : Doc V S) (s : S) (p : P) (ps : PRLStruct V)
    (hfind : ((world db_file).colls collection).find?
      (fun d => d.tag == metadata_tag) = some doc)
    (hs : doc.struct = some s)
    (hsd : lib.structure_from_dict s = Except.ok p)
    (hps : lib.prl_from_structure p = Except.ok ps) :
    (update_metadata lib world phase_name metadata_tag db_file collection).1
      = Except.ok { phase_name := phase_name, tag := metadata_tag,
                    sublattice := { configuration := ps.sublattice_configuration,
                                    occupancies := ps.sublattice_occupancies } } := by
  simp [update_metadata, hfind, hs, hsd, hps, exceptOk_bind, exceptMapError_ok]

/-- Witness for C2 at the concrete test database: the record tagged `t1`
holds structure dict `7`, which parses to the PRL structure with
configuration `[[al], [ni]]` and occupancies `[[1], [1]]`. -/
theorem c2_witness :
    (update_metadata testLib testWorld "ph" "t1" "db.json" "qha").1
      = Except.ok { phase_name := "ph", tag := "t1",
                    sublattice := { configuration := [["al"], ["ni"]],
                                    occupancies := [[1], [1]] } } :=
  c2_update_metadata_enriches_metadata testLib testWorld "ph" "t1" "db.json" "qha"
    doc1 7 7 ⟨[["al"], ["ni"]], [[1], [1]], [1, 1]⟩
    (by decide) (by decide) (by decide) (by decide)

/-- Claim C8.  If no record matches both the configuration and the phase
name (and the refstate loop itself succeeded), `dfttk_writeto_json`
raises an error — the `NameError` on `fixed_temp`, which line 105 reads
although the loop body that assigns it never ran — rather than producing
an empty dataset.  A non-empty match set is therefore a precondition. -/
theorem c8_no_matching_record_raises
    (lib : DfttkLib V S P PL ε) (world : World V S)
    (phase_name : String) (refstate_tags : List (String × String))
    (configuration_to_find : List (List String)) (ssr : R)
    (db_file collection : String) (tidx : Nat) (writefile : Bool)
    (rr : List (String × ThermalProps V PL) × Option String)
    (hre : buildRefstateEnergies lib ((world db_file).colls collection) refstate_tags
      = Except.ok rr)
    (hempty : ((world db_file).colls collection).filter
      (docMatches configuration_to_find phase_name) = []) :
    dfttk_writeto_json lib world phase_name refstate_tags configuration_to_find ssr
        db_file collection tidx writefile
      = Except.error (PyErr.nameError "fixed_temp") := by
  unfold dfttk_writeto_json wjCore
  dsimp only
  rw [hre, exceptOk_bind, hempty]
  simp [List.foldlM_nil, initLoopState, exceptOk_bind, exceptError_bind]

/-- Witness for C8: on the concrete test database no record has phase
name `zz`, so the call fails with the `fixed_temp` NameError. -/
theorem c8_witness :
    dfttk_writeto_json testLib testWorld "zz" testRefTags testConf (3 : Nat)
      "db.json" "qha" 1 true
      = Except.error (PyErr.nameError "fixed_temp") :=
  c8_no_matching_record_raises testLib testWorld "zz" testRefTags testConf 3
    "db.json" "qha" 1 true
    ([("al", ⟨[300, 400, 500], ()⟩), ("ni", ⟨[300, 400, 500], ()⟩)], some "ni-tag")
    (by decide) (by decide)

/-- Claim C9.  `update_metadata` never modifies the database: its
operation trace is the single read `find_one(collection, metadata_tag)`,
and replaying the trace on any database state leaves the state
unchanged. -/
theorem c9_update_metadata_is_readonly
    (lib : DfttkLib V S P PL ε) (world : World V S)
    (phase_name metadata_tag db_file collection : String) :
    (update_metadata lib world phase_name metadata_tag db_file collection).2
      = [DbOp.find_one collection metadata_tag] ∧
    ∀ db : MongoDb V S,
      applyOps (update_metadata lib world phase_name metadata_tag db_file collection).2 db
        = db :=
  ⟨rfl, fun _ => rfl⟩

end DfttkJson

namespace DfttkJson

/-- Claim C3.  For every matching record processed by the main loop, the
appended values are formation quantities relative to the reference
baselines: `refstate_energies` maps each element of `refstate_tags` to
`get_thermal_props` of the record found by its tag (first conjunct), and
each appended HM/SM/CPM value is the corresponding
`get_formation_energy` result — with `idx = temperature_index` for HM
and SM, and `thin = 10` with the last two entries dropped for CPM
(second conjunct; the oracle hypothesis `hO` ties each oracle value to
the corresponding library call on that record). -/
theorem c3_refstate_and_formation_values (lib : DfttkLib V S P PL ε)
    (coll : List (Doc V S)) (Rtp : String → ThermalProps V PL) (O : Oracle V S P PL)
    (refstate_tags : List (String × String))
    (configuration_to_find : List (List String)) (phase_name : String) (tidx : Nat)
    (hR : ∀ p ∈ refstate_tags,
      lib.get_thermal_props (coll.find? (fun d => d.tag == p.2)) = Except.ok (Rtp p.2))
    (hO : ∀ d ∈ coll.filter (docMatches configuration_to_find phase_name),
      O.Ok lib (refstate_tags.map (fun p => (p.1, Rtp p.2))) tidx d) :
    buildRefstateEnergies lib coll refstate_tags
      = Except.ok (refstate_tags.map (fun p => (p.1, Rtp p.2)),
          lastOpt none (refstate_tags.map Prod.snd)) ∧
    (coll.filter (docMatches configuration_to_find phase_name)).foldlM
        (processRecord lib (refstate_tags.map (fun p => (p.1, Rtp p.2))) tidx) initLoopState
      = Except.ok
          { configs := (coll.filter (docMatches configuration_to_find phase_name)).map
              (fun d => (O.sl d).configuration),
            occupancies := (coll.filter (docMatches configuration_to_find phase_name)).map
              (fun d => (O.sl d).occupancies),
            hm_values := (coll.filter (docMatches configuration_to_find phase_name)).map O.hm,
            sm_values := (coll.filter (docMatches configuration_to_find phase_name)).map O.sm,
            cpm_values := (coll.filter (docMatches configuration_to_find phase_name)).map
              (fun d => dropLast2 (O.cpmAll d)),
            fixed_temp := lastOpt none
              ((coll.filter (docMatches configuration_to_find phase_name)).map O.ft),
            cpm_temps := lastOpt none
              ((coll.filter (docMatches configuration_to_find phase_name)).map
                (fun d => dropLast2 (everyNth 10 (O.tp d).T))) } := by
  refine ⟨buildRefstateEnergies_eq lib coll Rtp refstate_tags hR, ?_⟩
  rw [foldlM_processRecord_eq O lib _ tidx _ initLoopState hO]
  simp [initLoopState]

/-- Witness for C3 on the concrete test database: the refstate loop
yields the two thermal-props entries and leaks tag `ni-tag`; the single
matching record contributes HM value 5, SM value 7 and CPM array
`[1, 2]` (`[1, 2, 3, 4]` with the last two dropped). -/
theorem c3_witness :
    buildRefstateEnergies testLib [docAl, docNi, doc1] testRefTags
      = Except.ok ([("al", ⟨[300, 400, 500], ()⟩), ("ni", ⟨[300, 400, 500], ()⟩)],
          some "ni-tag") ∧
    ([docAl, docNi, doc1].filter (docMatches testConf "ph")).foldlM
        (processRecord testLib
          [("al", ⟨[300, 400, 500], ()⟩), ("ni", ⟨[300, 400, 500], ()⟩)] 1)
        initLoopState
      = Except.ok { configs := [[["al"], ["ni"]]], occupancies := [[[1], [1]]],
                    hm_values := [5], sm_values := [7], cpm_values := [[1, 2]],
                    fixed_temp := some 400, cpm_temps := some [] } :=
  c3_refstate_and_formation_values testLib [docAl, docNi, doc1] testRtp testOracle
    testRefTags testConf "ph" 1 (by decide) (by decide)

/-- Claim C4.  Every record matching both the configuration and the
phase name contributes its sublattice configuration and occupancies, in
query order, to the `configs` and `occupancies` lists passed to
`make_dataset`, and no other record contributes: the produced dataset's
`configs` and `occupancies` are exactly the maps of the match set. -/
theorem c4_only_matching_records_contribute (O : Oracle V S P PL)
    (lib : DfttkLib V S P PL ε) (world : World V S)
    (Rtp : String → ThermalProps V PL)
    (phase_name : String) (refstate_tags : List (String × String))
    (configuration_to_find : List (List String)) (ssr : R)
    (db_file collection : String) (tidx : Nat)
    (tpre : List (String × String)) (tl : String × String)
    (mpre : List (Doc V S)) (dl : Doc V S)
    (hR : ∀ p ∈ refstate_tags,
      lib.get_thermal_props (((world db_file).colls collection).find?
        (fun d => d.tag == p.2)) = Except.ok (Rtp p.2))
    (hO : ∀ d ∈ ((world db_file).colls collection).filter
        (docMatches configuration_to_find phase_name),
      O.Ok lib (refstate_tags.map (fun p => (p.1, Rtp p.2))) tidx d)
    (htags : refstate_tags = tpre ++ [tl])
    (hmatched : ((world db_file).colls collection).filter
        (docMatches configuration_to_find phase_name) = mpre ++ [dl]) :
    dfttk_writeto_json lib world phase_name refstate_tags configuration_to_find ssr
        db_file collection tidx false
      = Except.ok (WJResult.returned (cpmDataset O phase_name ssr (mpre ++ [dl]) dl tl.2)) ∧
    (cpmDataset O phase_name ssr (mpre ++ [dl]) dl tl.2).configs
      = (((world db_file).colls collection).filter
          (docMatches configuration_to_find phase_name)).map
          (fun d => (O.sl d).configuration) ∧
    (cpmDataset O phase_name ssr (mpre ++ [dl]) dl tl.2).occupancies
      = (((world db_file).colls collection).filter
          (docMatches configuration_to_find phase_name)).map
          (fun d => (O.sl d).occupancies) := by
  refine ⟨?_, ?_, ?_⟩
  · unfold dfttk_writeto_json
    rw [wjCore_eq O lib world Rtp phase_name refstate_tags configuration_to_find ssr
      db_file collection tidx tpre tl mpre dl hR hO htags hmatched, exceptOk_bind]
    dsimp only
    rw [if_neg (by simp)]
  · rw [hmatched]; rfl
  · rw [hmatched]; rfl

/-- Witness for C4 on the concrete test database: the single matching
record is `doc1`; the returned dataset carries exactly its configuration
and occupancies. -/
theorem c4_witness :
    dfttk_writeto_json testLib testWorld "ph" testRefTags testConf (3 : Nat)
      "db.json" "qha" 1 false
      = Except.ok (WJResult.returned testCpmDs) ∧
    testCpmDs.configs = [[["al"], ["ni"]]] ∧
    testCpmDs.occupancies = [[[1], [1]]] :=
  c4_only_matching_records_contribute testOracle testLib testWorld testRtp "ph"
    testRefTags testConf 3 "db.json" "qha" 1 [("al", "al-tag")] ("ni", "ni-tag") [] doc1
    (by decide) (by decide) (by decide) (by decide)

/-- Claim C5.  The per-record results are reshaped before entering the
datasets: the record loop produces the five lists (first conjunct); the
`T` value for HM/SM is entry `temperature_index` of the last processed
record's temperature array (second conjunct) and the three
`make_dataset` calls receive `hm_values` and `sm_values` wrapped as
`[[values]]`, `cpm_values` transposed with a leading new axis, and
condition dicts with `P = 101325` and `T` as claimed (third
conjunct). -/
theorem c5_reshaped_arrays_and_conditions (O : Oracle V S P PL)
    (lib : DfttkLib V S P PL ε) (world : World V S)
    (Rtp : String → ThermalProps V PL)
    (phase_name : String) (refstate_tags : List (String × String))
    (configuration_to_find : List (List String)) (ssr : R)
    (db_file collection : String) (tidx : Nat)
    (mpre : List (Doc V S)) (dl : Doc V S) (st : LoopState V) (tg : String)
    (hO : ∀ d ∈ ((world db_file).colls collection).filter
        (docMatches configuration_to_find phase_name),
      O.Ok lib (refstate_tags.map (fun p => (p.1, Rtp p.2))) tidx d)
    (hmatched : ((world db_file).colls collection).filter
        (docMatches configuration_to_find phase_name) = mpre ++ [dl])
    (hst : st = { configs := (mpre ++ [dl]).map (fun d => (O.sl d).configuration),
                  occupancies := (mpre ++ [dl]).map (fun d => (O.sl d).occupancies),
                  hm_values := (mpre ++ [dl]).map O.hm,
                  sm_values := (mpre ++ [dl]).map O.sm,
                  cpm_values := (mpre ++ [dl]).map (fun d => dropLast2 (O.cpmAll d)),
                  fixed_temp := some (O.ft dl),
                  cpm_temps := some (dropLast2 (everyNth 10 (O.tp dl).T)) }) :
    ((((world db_file).colls collection).filter
        (docMatches configuration_to_find phase_name)).foldlM
        (processRecord lib (refstate_tags.map (fun p => (p.1, Rtp p.2))) tidx) initLoopState
      = Except.ok st) ∧
    (O.tp dl).T[tidx]? = some (O.ft dl) ∧
    buildDatasets phase_name ssr st.configs
        { P := 101325, T := CondVal.scalar (O.ft dl) }
        { P := 101325, T := CondVal.array (dropLast2 (everyNth 10 (O.tp dl).T)) }
        [[st.hm_values]] [[st.sm_values]] [st.cpm_values.transpose] st.occupancies tg
      = [("HM_FORM", make_dataset phase_name "HM_FORM" ssr st.configs
            { P := 101325, T := CondVal.scalar (O.ft dl) }
            [[(mpre ++ [dl]).map O.hm]] st.occupancies tg),
         ("SM_FORM", make_dataset phase_name "SM_FORM" ssr st.configs
            { P := 101325, T := CondVal.scalar (O.ft dl) }
            [[(mpre ++ [dl]).map O.sm]] st.occupancies tg),
         ("CPM_FORM", make_dataset phase_name "CPM_FORM" ssr st.configs
            { P := 101325, T := CondVal.array (dropLast2 (everyNth 10 (O.tp dl).T)) }
            [((mpre ++ [dl]).map (fun d => dropLast2 (O.cpmAll d))).transpose]
            st.occupancies tg)] := by
  refine ⟨?_, ?_, ?_⟩
  · rw [hmatched, foldlM_processRecord_eq O lib _ tidx _ initLoopState
      (by rw [hmatched] at hO; exact hO), hst]
    simp [initLoopState, List.map_append, lastOpt_append_singleton]
  · exact (hO dl (by rw [hmatched]; simp)).2.2.2.2.2.2.2
  · rw [hst]; rfl

/-- Witness for C5 on the concrete test database: HM values `[5]` and SM
values `[7]` are wrapped to `[[[5]]]` and `[[[7]]]`, the CPM rows
`[[1, 2]]` are transposed (with leading axis) to `[[[1], [2]]]`, both
condition dicts carry `P = 101325`, the HM/SM `T` is `400` (entry 1 of
`[300, 400, 500]`) and the CPM `T` array is empty (`[300]` with the last
two entries dropped). -/
theorem c5_witness :
    ((((testWorld "db.json").colls "qha").filter (docMatches testConf "ph")).foldlM
        (processRecord testLib (testRefTags.map (fun p => (p.1, testRtp p.2))) 1)
        initLoopState
      = Except.ok { configs := [[["al"], ["ni"]]], occupancies := [[[1], [1]]],
                    hm_values := [5], sm_values := [7], cpm_values := [[1, 2]],
                    fixed_temp := some 400, cpm_temps := some [] }) ∧
    (testOracle.tp doc1).T[1]? = some (testOracle.ft doc1) ∧
    buildDatasets "ph" (3 : Nat) [[["al"], ["ni"]]]
        { P := 101325, T := CondVal.scalar (testOracle.ft doc1) }
        { P := 101325, T := CondVal.array (dropLast2 (everyNth 10 (testOracle.tp doc1).T)) }
        [[[5]]] [[[7]]] [[[1], [2]]] [[[1], [1]]] "ni-tag"
      = [("HM_FORM", make_dataset "ph" "HM_FORM" 3 [[["al"], ["ni"]]]
            { P := 101325, T := CondVal.scalar (testOracle.ft doc1) }
            [[[5]]] [[[1], [1]]] "ni-tag"),
         ("SM_FORM", make_dataset "ph" "SM_FORM" 3 [[["al"], ["ni"]]]
            { P := 101325, T := CondVal.scalar (testOracle.ft doc1) }
            [[[7]]] [[[1], [1]]] "ni-tag"),
         ("CPM_FORM", make_dataset "ph" "CPM_FORM" 3 [[["al"], ["ni"]]]
            { P := 101325, T := CondVal.array (dropLast2 (everyNth 10 (testOracle.tp doc1).T)) }
            [[[1], [2]]] [[[1], [1]]] "ni-tag")] := by
  have h := c5_reshaped_arrays_and_conditions testOracle testLib testWorld testRtp "ph"
    testRefTags testConf 3 "db.json" "qha" 1 [] doc1
    { configs := [[["al"], ["ni"]]], occupancies := [[[1], [1]]],
      hm_values := [5], sm_values := [7], cpm_values := [[1, 2]],
      fixed_temp := some 400, cpm_temps := some [] }
    "ni-tag" (by decide) (by decide) (by decide)
  exact h

end DfttkJson

namespace DfttkJson

/-- Claim C6.  When `writefile` is `True`, the function writes a JSON
file whose name is the fixed pattern
`<COMPS>-<phase_name>-<prop>-DFTTK.json`, where `COMPS` joins with `-`
the uppercased sorted flattening of `configuration_to_find` and `prop`
is the per-property loop's final value `CPM_FORM`; when `writefile` is
not `True`, no file is written and the dataset is returned instead. -/
theorem c6_filename_and_writefile_branch
    (lib : DfttkLib V S P PL ε) (world : World V S)
    (phase_name : String) (refstate_tags : List (String × String))
    (configuration_to_find : List (List String)) (ssr : R)
    (db_file collection : String) (tidx : Nat) :
    (∀ r : WJResult V R,
      dfttk_writeto_json lib world phase_name refstate_tags configuration_to_find ssr
        db_file collection tidx true = Except.ok r →
      ∃ ds, r = WJResult.wroteFile
        (String.intercalate "-" ((pySorted (recursive_flatten configuration_to_find)).map pyUpper)
          ++ "-" ++ phase_name ++ "-" ++ "CPM_FORM" ++ "-DFTTK.json") ds) ∧
    (∀ r : WJResult V R,
      dfttk_writeto_json lib world phase_name refstate_tags configuration_to_find ssr
        db_file collection tidx false = Except.ok r →
      ∃ ds, r = WJResult.returned ds) := by
  constructor
  · intro r h
    unfold dfttk_writeto_json at h
    rcases hb : wjCore lib world phase_name refstate_tags configuration_to_find ssr
        db_file collection tidx with e | t
    · rw [hb] at h; simp [exceptError_bind] at h
    · obtain ⟨h1, h2⟩ := wjCore_ok_inv lib world phase_name refstate_tags
        configuration_to_find ssr db_file collection tidx t hb
      rw [hb, exceptOk_bind] at h
      dsimp only at h
      rw [if_pos rfl] at h
      refine ⟨t.2.2, ?_⟩
      cases h
      rw [h1, h2]
  · intro r h
    unfold dfttk_writeto_json at h
    rcases hb : wjCore lib world phase_name refstate_tags configuration_to_find ssr
        db_file collection tidx with e | t
    · rw [hb] at h; simp [exceptError_bind] at h
    · rw [hb, exceptOk_bind] at h
      dsimp only at h
      rw [if_neg (by simp)] at h
      cases h
      exact ⟨t.2.2, rfl⟩

/-- Witness for C6 on the concrete test database: the file written is
named `AL-NI-ph-CPM_FORM-DFTTK.json` (`COMPS = AL-NI` from sorting and
uppercasing the flattened configuration `[[al], [ni]]`). -/
theorem c6_witness :
    ∃ ds, (WJResult.wroteFile "AL-NI-ph-CPM_FORM-DFTTK.json" testCpmDs : WJResult Int Nat)
      = WJResult.wroteFile
          (String.intercalate "-" ((pySorted (recursive_flatten testConf)).map pyUpper)
            ++ "-" ++ "ph" ++ "-" ++ "CPM_FORM" ++ "-DFTTK.json") ds :=
  (c6_filename_and_writefile_branch testLib testWorld "ph" testRefTags testConf 3
    "db.json" "qha" 1).1
    (WJResult.wroteFile "AL-NI-ph-CPM_FORM-DFTTK.json" testCpmDs) (by decide)

/-- Claim C7.  Neither function recovers from failures: an exception
raised by an underlying library call propagates to the caller
unchanged, with no retry or fallback.  The conjuncts cover every
fallible call at every loop position: for `update_metadata`,
`Structure.from_dict` (line 39) and `PRLStructure.from_structure`
(line 40); for `dfttk_writeto_json`, `get_thermal_props` at an
arbitrary position of the refstate loop (line 84, via a prefix that
already succeeded), and — through the fourth conjunct, which propagates
an arbitrary iteration failure from an arbitrary position of the main
loop — each fallible call of the loop body: `get_thermal_props`
(line 95), `Structure.from_dict` (line 96), `get_formation_energy` with
`idx` for HM and SM (lines 97-98) and `get_formation_energy` with
`thin=10` for CPM (line 99), covered by the remaining five conjuncts on
`processRecord` at an arbitrary loop state.  In every case the result
is exactly the library's error, never a handled value. -/
theorem c7_exceptions_propagate_unchanged :
    (∀ (lib : DfttkLib V S P PL ε) (world : World V S) (pn mt dbf cl : String)
        (doc : Doc V S) (s : S) (e : ε),
      ((world dbf).colls cl).find? (fun d => d.tag == mt) = some doc →
      doc.struct = some s →
      lib.structure_from_dict s = Except.error e →
      (update_metadata lib world pn mt dbf cl).1 = Except.error (PyErr.ext e)) ∧
    (∀ (lib : DfttkLib V S P PL ε) (world : World V S) (pn mt dbf cl : String)
        (doc : Doc V S) (s : S) (p : P) (e : ε),
      ((world dbf).colls cl).find? (fun d => d.tag == mt) = some doc →
      doc.struct = some s →
      lib.structure_from_dict s = Except.ok p →
      lib.prl_from_structure p = Except.error e →
      (update_metadata lib world pn mt dbf cl).1 = Except.error (PyErr.ext e)) ∧
    (∀ (lib : DfttkLib V S P PL ε) (world : World V S) (pn el tg : String)
        (pre rest : List (String × String)) (conf : List (List String)) (ssr : R)
        (dbf cl : String) (tidx : Nat) (wf : Bool)
        (rr : List (String × ThermalProps V PL) × Option String) (e : ε),
      buildRefstateEnergies lib ((world dbf).colls cl) pre = Except.ok rr →
      lib.get_thermal_props (((world dbf).colls cl).find? (fun d => d.tag == tg))
        = Except.error e →
      dfttk_writeto_json lib world pn (pre ++ (el, tg) :: rest) conf ssr dbf cl tidx wf
        = Except.error (PyErr.ext e)) ∧
    (∀ (lib : DfttkLib V S P PL ε) (world : World V S) (pn : String)
        (rt : List (String × String)) (conf : List (List String)) (ssr : R)
        (dbf cl : String) (tidx : Nat) (wf : Bool)
        (rr : List (String × ThermalProps V PL) × Option String)
        (mpre : List (Doc V S)) (d : Doc V S) (rest : List (Doc V S))
        (st : LoopState V) (err : PyErr ε),
      buildRefstateEnergies lib ((world dbf).colls cl) rt = Except.ok rr →
      ((world dbf).colls cl).filter (docMatches conf pn) = mpre ++ d :: rest →
      mpre.foldlM (processRecord lib rr.1 tidx) initLoopState = Except.ok st →
      processRecord lib rr.1 tidx st d = Except.error err →
      dfttk_writeto_json lib world pn rt conf ssr dbf cl tidx wf = Except.error err) ∧
    (∀ (lib : DfttkLib V S P PL ε)
        (E : List (String × ThermalProps V PL)) (tidx : Nat) (st : LoopState V)
        (d : Doc V S) (sl : Sublattice V) (e : ε),
      d.sublattice = some sl →
      lib.get_thermal_props (some d) = Except.error e →
      processRecord lib E tidx st d = Except.error (PyErr.ext e)) ∧
    (∀ (lib : DfttkLib V S P PL ε)
        (E : List (String × ThermalProps V PL)) (tidx : Nat) (st : LoopState V)
        (d : Doc V S) (sl : Sublattice V) (tp : ThermalProps V PL) (s : S) (e : ε),
      d.sublattice = some sl →
      lib.get_thermal_props (some d) = Except.ok tp →
      d.struct = some s →
      lib.structure_from_dict s = Except.error e →
      processRecord lib E tidx st d = Except.error (PyErr.ext e)) ∧
    (∀ (lib : DfttkLib V S P PL ε)
        (E : List (String × ThermalProps V PL)) (tidx : Nat) (st : LoopState V)
        (d : Doc V S) (sl : Sublattice V) (tp : ThermalProps V PL) (s : S) (p : P) (e : ε),
      d.sublattice = some sl →
      lib.get_thermal_props (some d) = Except.ok tp →
      d.struct = some s →
      lib.structure_from_dict s = Except.ok p →
      lib.get_formation_energy_idx tp p E "HM" tidx = Except.error e →
      processRecord lib E tidx st d = Except.error (PyErr.ext e)) ∧
    (∀ (lib : DfttkLib V S P PL ε)
        (E : List (String × ThermalProps V PL)) (tidx : Nat) (st : LoopState V)
        (d : Doc V S) (sl : Sublattice V) (tp : ThermalProps V PL) (s : S) (p : P)
        (hm : V) (e : ε),
      d.sublattice = some sl →
      lib.get_thermal_props (some d) = Except.ok tp →
      d.struct = some s →
      lib.structure_from_dict s = Except.ok p →
      lib.get_formation_energy_idx tp p E "HM" tidx = Except.ok hm →
      lib.get_formation_energy_idx tp p E "SM" tidx = Except.error e →
      processRecord lib E tidx st d = Except.error (PyErr.ext e)) ∧
    (∀ (lib : DfttkLib V S P PL ε)
        (E : List (String × ThermalProps V PL)) (tidx : Nat) (st : LoopState V)
        (d : Doc V S) (sl : Sublattice V) (tp : ThermalProps V PL) (s : S) (p : P)
        (hm sm : V) (e : ε),
      d.sublattice = some sl →
      lib.get_thermal_props (some d) = Except.ok tp →
      d.struct = some s →
      lib.structure_from_dict s = Except.ok p →
      lib.get_formation_energy_idx tp p E "HM" tidx = Except.ok hm →
      lib.get_formation_energy_idx tp p E "SM" tidx = Except.ok sm →
      lib.get_formation_energy_thin tp p E "CPM" 10 = Except.error e →
      processRecord lib E tidx st d = Except.error (PyErr.ext e)) := by
  refine ⟨?_, ?_, ?_, ?_, ?_, ?_, ?_, ?_, ?_⟩
  · intro lib world pn mt dbf cl doc s e h1 h2 h3
    simp [update_metadata, h1, h2, h3, exceptMapError_error, exceptError_bind, exceptOk_bind]
  · intro lib world pn mt dbf cl doc s p e h1 h2 h3 h4
    simp [update_metadata, h1, h2, h3, h4, exceptMapError_error, exceptMapError_ok,
      exceptError_bind, exceptOk_bind]
  · intro lib world pn el tg pre rest conf ssr dbf cl tidx wf rr e hpre herr
    have hb : buildRefstateEnergies lib ((world dbf).colls cl) (pre ++ (el, tg) :: rest)
        = Except.error (PyErr.ext e) := by
      unfold buildRefstateEnergies at hpre ⊢
      rw [List.foldlM_append, hpre, exceptOk_bind, List.foldlM_cons]
      simp [herr, exceptMapError_error, exceptError_bind]
    unfold dfttk_writeto_json wjCore
    dsimp only
    rw [hb]
    simp [exceptError_bind]
  · intro lib world pn rt conf ssr dbf cl tidx wf rr mpre d rest st err hre hmatched hpre herr
    unfold dfttk_writeto_json wjCore
    dsimp only
    rw [hre, exceptOk_bind, hmatched, List.foldlM_append, hpre, exceptOk_bind,
      List.foldlM_cons, herr]
    simp [exceptError_bind]
  · intro lib E tidx st d sl e h1 h2
    simp [processRecord, h1, h2, exceptOk_bind, exceptError_bind, exceptMapError_error]
  · intro lib E tidx st d sl tp s e h1 h2 h3 h4
    simp [processRecord, h1, h2, h3, h4, exceptOk_bind, exceptError_bind,
      exceptMapError_ok, exceptMapError_error]
  · intro lib E tidx st d sl tp s p e h1 h2 h3 h4 h5
    simp [processRecord, h1, h2, h3, h4, h5, exceptOk_bind, exceptError_bind,
      exceptMapError_ok, exceptMapError_error]
  · intro lib E tidx st d sl tp s p hm e h1 h2 h3 h4 h5 h6
    simp [processRecord, h1, h2, h3, h4, h5, h6, exceptOk_bind, exceptError_bind,
      exceptMapError_ok, exceptMapError_error]
  · intro lib E tidx st d sl tp s p hm sm e h1 h2 h3 h4 h5 h6 h7
    simp [processRecord, h1, h2, h3, h4, h5, h6, h7, exceptOk_bind, exceptError_bind,
      exceptMapError_ok, exceptMapError_error]

/-- Witness for C7.  First conjunct of the statement: on a database with
two matching records, `get_formation_energy(..., 'CPM', thin=10)`
raising exception `13` at the second record makes the whole call fail
with exactly that exception (applying the arbitrary-position loop
conjunct, with the iteration failure supplied by the per-site CPM
conjunct).  Second conjunct: a `Structure.from_dict` failure in
`update_metadata` surfaces unchanged. -/
theorem c7_witness :
    dfttk_writeto_json thinErrLib testWorld2 "ph" testRefTags testConf (3 : Nat)
      "db.json" "qha" 1 true = Except.error (PyErr.ext 13) ∧
    (update_metadata errLib testWorld "ph" "t1" "db.json" "qha").1
      = Except.error (PyErr.ext 9) :=
  ⟨(@c7_exceptions_propagate_unchanged Int Nat Nat Unit Nat Nat).2.2.2.1 thinErrLib
      testWorld2 "ph" testRefTags testConf 3 "db.json" "qha" 1 true
      ([("al", ⟨[300, 400, 500], ()⟩), ("ni", ⟨[300, 400, 500], ()⟩)], some "ni-tag")
      [doc1] doc2 []
      { configs := [[["al"], ["ni"]]], occupancies := [[[1], [1]]],
        hm_values := [5], sm_values := [7], cpm_values := [[1, 2]],
        fixed_temp := some 400, cpm_temps := some [] }
      (PyErr.ext 13) (by decide) (by decide) (by decide)
      ((@c7_exceptions_propagate_unchanged Int Nat Nat Unit Nat Nat).2.2.2.2.2.2.2.2
        thinErrLib
        [("al", ⟨[300, 400, 500], ()⟩), ("ni", ⟨[300, 400, 500], ()⟩)] 1
        { configs := [[["al"], ["ni"]]], occupancies := [[[1], [1]]],
          hm_values := [5], sm_values := [7], cpm_values := [[1, 2]],
          fixed_temp := some 400, cpm_temps := some [] }
        doc2 ⟨[["al"], ["ni"]], [[1], [1]]⟩ ⟨[300, 400, 500], ()⟩ 8 8 5 7 13
        (by decide) (by decide) (by decide) (by decide) (by decide) (by decide) (by decide)),
   (@c7_exceptions_propagate_unchanged Int Nat Nat Unit Nat Nat).1 errLib testWorld
     "ph" "t1" "db.json" "qha" doc1 7 9 (by decide) (by decide) (by decide)⟩

/-- Claim C10.  The `tag` recorded in the produced dataset is the leaked
refstate loop variable: for a non-empty `refstate_tags` the dataset's
`tag` equals the second component of the final entry of `refstate_tags`
(here `tl`, with `refstate_tags.getLast? = some tl`), not a tag of the
matched configuration records. -/
theorem c10_tag_is_leaked_refstate_tag (O : Oracle V S P PL)
    (lib : DfttkLib V S P PL ε) (world : World V S)
    (Rtp : String → ThermalProps V PL)
    (phase_name : String) (refstate_tags : List (String × String))
    (configuration_to_find : List (List String)) (ssr : R)
    (db_file collection : String) (tidx : Nat)
    (tpre : List (String × String)) (tl : String × String)
    (mpre : List (Doc V S)) (dl : Doc V S)
    (hR : ∀ p ∈ refstate_tags,
      lib.get_thermal_props (((world db_file).colls collection).find?
        (fun d => d.tag == p.2)) = Except.ok (Rtp p.2))
    (hO : ∀ d ∈ ((world db_file).colls collection).filter
        (docMatches configuration_to_find phase_name),
      O.Ok lib (refstate_tags.map (fun p => (p.1, Rtp p.2))) tidx d)
    (htags : refstate_tags = tpre ++ [tl])
    (hmatched : ((world db_file).colls collection).filter
        (docMatches configuration_to_find phase_name) = mpre ++ [dl]) :
    dfttk_writeto_json lib world phase_name refstate_tags configuration_to_find ssr
        db_file collection tidx false
      = Except.ok (WJResult.returned (cpmDataset O phase_name ssr (mpre ++ [dl]) dl tl.2)) ∧
    (cpmDataset O phase_name ssr (mpre ++ [dl]) dl tl.2).tag = tl.2 ∧
    refstate_tags.getLast? = some tl := by
  refine ⟨?_, rfl, ?_⟩
  · unfold dfttk_writeto_json
    rw [wjCore_eq O lib world Rtp phase_name refstate_tags configuration_to_find ssr
      db_file collection tidx tpre tl mpre dl hR hO htags hmatched, exceptOk_bind]
    dsimp only
    rw [if_neg (by simp)]
  · rw [htags]; simp

/-- Witness for C10 on the concrete test database: the dataset's tag is
`ni-tag` — the final refstate tag — although the matched record is
tagged `t1`. -/
theorem c10_witness :
    dfttk_writeto_json testLib testWorld "ph" testRefTags testConf (3 : Nat)
      "db.json" "qha" 1 false
      = Except.ok (WJResult.returned testCpmDs) ∧
    testCpmDs.tag = "ni-tag" ∧
    testRefTags.getLast? = some ("ni", "ni-tag") :=
  c10_tag_is_leaked_refstate_tag testOracle testLib testWorld testRtp "ph"
    testRefTags testConf 3 "db.json" "qha" 1 [("al", "al-tag")] ("ni", "ni-tag") [] doc1
    (by decide) (by decide) (by decide) (by decide)

end DfttkJson
